import Mathlib

/-!
Shallow embedding of the register decoding/encoding core of the
`ha-jablotron-volta` integration: the pure scaling codec
(`custom_components/jablotron_volta/scaling.py`), the batched transport
client state machine and read plan
(`custom_components/jablotron_volta/modbus_client.py`), and the data
assembler (`custom_components/jablotron_volta/coordinator.py`,
`_process_raw_data`).

Machine registers are modelled as `Nat` (unsigned 16-bit wire values),
Python `int` results as `Int`, and Python `float` arithmetic as exact
rationals `Rat`; at the 0.1-step granularity used by every scaled field
the IEEE-double computations of the source are exact, so the rational
model agrees with the code on the inputs the theorems quantify over.
Fallible wire operations are oracles returning `Option`.
-/

namespace JablotronVolta

/-! ### Scaling codec (`scaling.py`) -/

/-- `to_signed_int16` (scaling.py, lines 16-26): unsigned uint16 to signed
int16; values above 32767 are two's-complement negatives. -/
def to_signed_int16 (value : ℕ) : ℤ :=
  if value > 32767 then (value : ℤ) - 65536 else (value : ℤ)

/-- `to_unsigned_int16` (scaling.py, lines 29-36): signed int16 to unsigned
uint16. -/
def to_unsigned_int16 (value : ℤ) : ℤ :=
  if value < 0 then value + 65536 else value

/-- Python `int(...)` applied to an exact rational: truncation toward zero. -/
def pyTrunc (q : ℚ) : ℤ := if q < 0 then ⌈q⌉ else ⌊q⌋

/-- `scale_temperature` (scaling.py, lines 44-46): `value / 10.0`. -/
def scale_temperature (value : ℤ) : ℚ := (value : ℚ) / 10

/-- `scale_signed_temperature` (scaling.py, lines 49-55):
`to_signed_int16(value) / 10.0`. -/
def scale_signed_temperature (value : ℕ) : ℚ := (to_signed_int16 value : ℚ) / 10

/-- `scale_voltage` (scaling.py, lines 58-60): `value / 10.0`. -/
def scale_voltage (value : ℤ) : ℚ := (value : ℚ) / 10

/-- `scale_pressure` (scaling.py, lines 63-65): `value / 10.0`. -/
def scale_pressure (value : ℤ) : ℚ := (value : ℚ) / 10

/-- `scale_percentage` (scaling.py, lines 68-70): `value / 10.0`. -/
def scale_percentage (value : ℤ) : ℚ := (value : ℚ) / 10

/-- `scale_signed_percentage` (scaling.py, lines 73-78). -/
def scale_signed_percentage (value : ℕ) : ℚ := (to_signed_int16 value : ℚ) / 10

/-- `scale_ratio` (scaling.py, lines 81-83): `value / 10.0`. -/
def scale_ratio (value : ℤ) : ℚ := (value : ℚ) / 10

/-- `unscale_temperature` (scaling.py, lines 91-93): `int(value * 10)`. -/
def unscale_temperature (value : ℚ) : ℤ := pyTrunc (value * 10)

/-- `unscale_signed_temperature` (scaling.py, lines 96-102):
`to_unsigned_int16(int(value * 10))`. -/
def unscale_signed_temperature (value : ℚ) : ℤ :=
  to_unsigned_int16 (pyTrunc (value * 10))

/-- `unscale_voltage` (scaling.py, lines 105-107). -/
def unscale_voltage (value : ℚ) : ℤ := pyTrunc (value * 10)

/-- `unscale_pressure` (scaling.py, lines 110-112). -/
def unscale_pressure (value : ℚ) : ℤ := pyTrunc (value * 10)

/-- `unscale_percentage` (scaling.py, lines 115-117). -/
def unscale_percentage (value : ℚ) : ℤ := pyTrunc (value * 10)

/-- `unscale_signed_percentage` (scaling.py, lines 120-125). -/
def unscale_signed_percentage (value : ℚ) : ℤ :=
  to_unsigned_int16 (pyTrunc (value * 10))

/-- `unscale_ratio` (scaling.py, lines 128-130). -/
def unscale_ratio (value : ℚ) : ℤ := pyTrunc (value * 10)

/-- `registers_to_ip` (scaling.py, lines 138-140): renders
`f"{reg0 >> 8}.{reg0 & 0xFF}.{reg1 >> 8}.{reg1 & 0xFF}"`. -/
def registers_to_ip (reg0 reg1 : ℕ) : String :=
  Nat.repr (reg0 >>> 8) ++ "." ++ Nat.repr (reg0 &&& 0xFF) ++ "." ++
    Nat.repr (reg1 >>> 8) ++ "." ++ Nat.repr (reg1 &&& 0xFF)

/-- Exceptions `ip_to_registers` can raise: `ValueError` from `int(p)` on a
non-numeric component, `IndexError` from `parts[i]` with fewer than four
components. -/
inductive PyErr
  | valueError
  | indexError
deriving DecidableEq

/-- Digit-string fragment of Python `int(...)`: parses a nonempty string of
decimal digits, fails otherwise. (Python's `int` also accepts surrounding
whitespace, a sign and underscores; the dotted-quad components reasoned
about here are plain digit strings, where the two agree.) -/
def pyParseNat (s : String) : Option ℕ :=
  if s.length ≠ 0 ∧ s.toList.all Char.isDigit then
    some (s.toList.foldl (fun acc c => acc * 10 + (c.toNat - 48)) 0)
  else none

/-- Helper for `pySplitDot`: accumulates the current component (reversed). -/
def splitDotAux : List Char → List Char → List String
  | [], acc => [String.mk acc.reverse]
  | c :: cs, acc =>
    if c = '.' then String.mk acc.reverse :: splitDotAux cs []
    else splitDotAux cs (c :: acc)

/-- Python `ip.split(".")`: splits on every `'.'`, keeping empty components
(`"".split(".") == [""]`, `"a..b".split(".") == ["a", "", "b"]`). -/
def pySplitDot (s : String) : List String := splitDotAux s.toList []

/-- `ip_to_registers` (scaling.py, lines 143-148):
`parts = [int(p) for p in ip.split(".")]` then
`((parts[0] << 8) | parts[1], (parts[2] << 8) | parts[3])`. -/
def ip_to_registers (ip : String) : Except PyErr (ℕ × ℕ) :=
  match (pySplitDot ip).mapM pyParseNat with
  | none => .error .valueError
  | some parts =>
    if h : 3 < parts.length then
      .ok (((parts.get ⟨0, by omega⟩) <<< 8) ||| parts.get ⟨1, by omega⟩,
           ((parts.get ⟨2, by omega⟩) <<< 8) ||| parts.get ⟨3, by omega⟩)
    else .error .indexError

/-- One uppercase hexadecimal digit. -/
def hexDigit (n : ℕ) : Char := "0123456789ABCDEF".toList.getD n '0'

/-- Python `f"{n:02X}"` for a byte value `n < 256` (every call site in
`registers_to_mac` passes `reg >> 8` or `reg & 0xFF` of a 16-bit register). -/
def hex2 (n : ℕ) : String := String.mk [hexDigit (n / 16), hexDigit (n % 16)]

/-- `registers_to_mac` (scaling.py, lines 151-157): six uppercase hex byte
pairs joined by colons. -/
def registers_to_mac (reg0 reg1 reg2 : ℕ) : String :=
  hex2 (reg0 >>> 8) ++ ":" ++ hex2 (reg0 &&& 0xFF) ++ ":" ++
    hex2 (reg1 >>> 8) ++ ":" ++ hex2 (reg1 &&& 0xFF) ++ ":" ++
    hex2 (reg2 >>> 8) ++ ":" ++ hex2 (reg2 &&& 0xFF)

/-- `registers_to_uint32` (scaling.py, lines 160-162): `(reg0 << 16) | reg1`. -/
def registers_to_uint32 (reg0 reg1 : ℕ) : ℕ := (reg0 <<< 16) ||| reg1

/-! ### Transport client state machine (`modbus_client.py`) -/

/-- Modelled from the spec: `const.py` is not among the sources; the value
5586 is stated in `authenticate_system_access`'s docstring
("password 5586") and in the spec's fixed-password handshake. -/
def SYSTEM_PASSWORD : ℕ := 5586

/-- The per-session mutable state of `JablotronModbusClient`: the
`_authenticated` flag (`__init__` sets it to `False`). -/
structure ClientState where
  authenticated : Bool
deriving DecidableEq

/-- `authenticate_system_access` (modbus_client.py, lines 88-120). The wire
outcome of the password write (`isError`, missing `function_code`, or an
exception all count as failure) is the oracle bit `hsOk`. Returns the
result, the new state, and the number of password-handshake writes
performed on the wire. -/
def authenticate_system_access (s : ClientState) (hsOk : Bool) :
    Bool × ClientState × ℕ :=
  if s.authenticated then (true, s, 0)
  else if hsOk then (true, ⟨true⟩, 1)
  else (false, s, 1)

/-- `write_register` (modbus_client.py, lines 224-266). Addresses in the
protected holding-register range 1000..3999 authenticate first; on
authentication failure the data write is not attempted. `wrOk` is the wire
outcome of the data write. Returns the result, the new state, and the
number of password-handshake writes performed. -/
def write_register (s : ClientState) (address _value : ℕ)
    (hsOk wrOk : Bool) : Bool × ClientState × ℕ :=
  if 1000 ≤ address ∧ address ≤ 3999 then
    match authenticate_system_access s hsOk with
    | (ok, s1, hs) => if ok then (wrOk, s1, hs) else (false, s1, hs)
  else (wrOk, s, 0)

/-- `connect` (modbus_client.py, lines 53-77). `sockOk = none` models an
exception from the socket-level connect, `some b` its boolean result; on a
successful socket connect the password handshake runs eagerly and a
handshake failure makes `connect` return `False`. -/
def connect (s : ClientState) (sockOk : Option Bool) (hsOk : Bool) :
    Bool × ClientState :=
  match sockOk with
  | none => (false, s)
  | some result =>
    if result then
      match authenticate_system_access s hsOk with
      | (ok, s1, _) => if ok then (true, s1) else (false, s1)
    else (false, s)

/-- `close` (modbus_client.py, lines 79-86): resets `_authenticated` to
`False` after the socket close; if the socket close raises (`closeOk =
false`) the flag is left untouched. -/
def close (s : ClientState) (closeOk : Bool) : ClientState :=
  if closeOk then ⟨false⟩ else s

/-! ### Batched read plan (`read_all_data`, modbus_client.py lines 268-379)

The per-span wire reads `read_input_registers` / `read_holding_registers`
(lines 122-222) return `None` on any Modbus error, malformed response or
exception; they are modelled as oracles `ri`/`rh` from `(address, count)`
to `Option (List ℕ)`. -/

/-- An entry of the raw-data dict: a register list or the `ch2_available`
boolean. -/
inductive RawEntry
  | regs (l : List ℕ)
  | flag (b : Bool)
deriving DecidableEq

/-- The `dict[str, Any]` returned by `read_all_data`. -/
abbrev RawData := List (String × RawEntry)

/-- Python truthiness of a `list[int] | None` read result: `None` and the
empty list are falsy. -/
def truthy : Option (List ℕ) → Bool
  | none => false
  | some l => !l.isEmpty

/-- The registers of a read result known to be truthy. -/
def getL (o : Option (List ℕ)) : List ℕ := o.getD []

/-- `if cond: data[k] = v` for a batch of key insertions. -/
def addIfAll (c : Bool) (kvs : RawData) (d : RawData) : RawData :=
  if c then d ++ kvs else d

/-- In-place mutation of the register list stored under `k`
(`data[k].extend(...)` / `data[k].append(...)`); keys are unique by
construction, so rewriting every matching entry models the mutation. -/
def updateRegs : RawData → String → (List ℕ → List ℕ) → RawData
  | [], _, _ => []
  | kv :: t, k, f =>
    (if kv.1 = k then
      (kv.1, match kv.2 with | .regs l => RawEntry.regs (f l) | e => e)
    else kv) :: updateRegs t k f

/-- First-match association lookup (`data[k]` on a dict with unique keys);
used both for the raw-register dict and the decoded snapshot dict. -/
def lookupKey {α : Type} (k : String) : List (String × α) → Option α
  | [] => none
  | kv :: t => if kv.1 = k then some kv.2 else lookupKey k t

/-- Membership test `key in data`. -/
def containsKey {α : Type} (d : List (String × α)) (k : String) : Bool :=
  (lookupKey k d).isSome

/-- `data.get("ch2_available", False)`: only `flag` entries are ever stored
under that key, so a non-flag entry counts as the default. -/
def pyGetFlag (d : RawData) (k : String) : Bool :=
  match lookupKey k d with
  | some (.flag b) => b
  | _ => false

/-- The CH2 presence probe (modbus_client.py, line 311):
`any(val != 0 and val != 0xFFFF for val in batch4)`. -/
def ch2_probe (l : List ℕ) : Bool :=
  l.any fun val => decide (val ≠ 0) && decide (val ≠ 0xFFFF)

/-- `read_all_data` (modbus_client.py, lines 268-379): the full batch plan,
with gap-filled merges, the CH2 presence probe and the conditional CH2
settings read. -/
def read_all_data (ri rh : ℕ → ℕ → Option (List ℕ)) : RawData :=
  let data : RawData := []
  let batch1a := ri 1 17
  let batch1b := ri 20 2
  let batch1c := ri 30 3
  let batch1d := ri 40 10
  let data :=
    if truthy batch1a && truthy batch1b && truthy batch1c && truthy batch1d then
      let batch1 := getL batch1a ++ [0, 0] ++ getL batch1b ++
        List.replicate 8 0 ++ getL batch1c ++ List.replicate 7 0 ++ getL batch1d
      data ++ [("device_info", RawEntry.regs (batch1.take 11)),
               ("network_info", RawEntry.regs ((batch1.drop 11).take 6)),
               ("system_status", RawEntry.regs ((batch1.drop 19).take 2)),
               ("regulation", RawEntry.regs ((batch1.drop 29).take 3)),
               ("boiler_status", RawEntry.regs ((batch1.drop 39).take 10))]
    else data
  let batch2 := ri 101 2
  let data := addIfAll (truthy batch2) [("dhw_status", .regs (getL batch2))] data
  let batch3 := ri 200 7
  let data := addIfAll (truthy batch3) [("ch1_status", .regs (getL batch3))] data
  let batch4 := ri 300 7
  let data :=
    if truthy batch4 then
      if ch2_probe (getL batch4) then
        data ++ [("ch2_status", RawEntry.regs (getL batch4)),
                 ("ch2_available", RawEntry.flag true)]
      else data ++ [("ch2_available", RawEntry.flag false)]
    else data
  let batch5a := rh 1001 2
  let data := addIfAll (truthy batch5a) [("system_alerts", .regs (getL batch5a))] data
  let batch5b := rh 1010 9
  let data := addIfAll (truthy batch5b) [("ethernet_config", .regs (getL batch5b))] data
  let batch6a := rh 1030 6
  let data := addIfAll (truthy batch6a)
    [("regulation_settings", .regs (getL batch6a))] data
  let batch6b := rh 1040 1
  let data :=
    if truthy batch6b then
      if containsKey data "regulation_settings" then
        updateRegs data "regulation_settings"
          fun l => l ++ [0, 0, 0, 0] ++ getL batch6b
      else data ++ [("regulation_settings",
        RawEntry.regs ([0, 0, 0, 0, 0, 0, 0, 0, 0, 0] ++ getL batch6b))]
    else data
  let batch7 := rh 1050 13
  let data := addIfAll (truthy batch7) [("boiler_settings", .regs (getL batch7))] data
  let batch8a := rh 1100 5
  let data := addIfAll (truthy batch8a) [("dhw_settings", .regs (getL batch8a))] data
  let batch8b := rh 1106 2
  let data :=
    if truthy batch8b then
      if containsKey data "dhw_settings" then
        updateRegs data "dhw_settings" fun l => l ++ [0] ++ getL batch8b
      else data ++ [("dhw_settings",
        RawEntry.regs ([0, 0, 0, 0, 0, 0] ++ getL batch8b))]
    else data
  let batch9 := rh 1200 20
  let data := addIfAll (truthy batch9) [("ch1_settings", .regs (getL batch9))] data
  let data :=
    if pyGetFlag data "ch2_available" then
      let batch10 := rh 1300 20
      addIfAll (truthy batch10) [("ch2_settings", .regs (getL batch10))] data
    else data
  let batch11 := rh 3001 10
  let data := addIfAll (truthy batch11) [("system_control", .regs (getL batch11))] data
  data

/-! ### Data assembler (`coordinator.py`, `_process_raw_data` lines 99-350)

Each `if "group" in raw_data: ... if len(regs) >= n: ...` section is
embedded as one `parse_*` function (the names follow the repository's own
test suite, `tests/test_coordinator.py`). A decoded value is an `int`,
`float`, `bool` or `str`. -/

/-- A decoded snapshot value. -/
inductive Val
  | i (n : ℤ)
  | q (x : ℚ)
  | b (v : Bool)
  | s (t : String)
deriving DecidableEq

/-- The decoded snapshot mapping. -/
abbrev Data := List (String × Val)

/-- Device metadata derived from the device-info batch (coordinator.py,
lines 104-125, stored on the coordinator object). -/
structure DeviceMeta where
  serial_number : String
  firmware_version : String
  hardware_version : String
  mac_address : String
deriving DecidableEq

/-- Device-info section (coordinator.py, lines 104-125). -/
def parse_device_info (regs : List ℕ) : Option DeviceMeta :=
  if h : 11 ≤ regs.length then
    some
      { serial_number := Nat.repr
          (registers_to_uint32 (regs.get ⟨0, by omega⟩) (regs.get ⟨1, by omega⟩))
        firmware_version :=
          Nat.repr (regs.get ⟨9, by omega⟩ >>> 8) ++ "." ++
            Nat.repr (regs.get ⟨9, by omega⟩ &&& 0xFF) ++ "." ++
            Nat.repr (regs.get ⟨10, by omega⟩)
        hardware_version :=
          Nat.repr (regs.get ⟨4, by omega⟩ >>> 8) ++ "." ++
            Nat.repr (regs.get ⟨4, by omega⟩ &&& 0xFF) ++ "." ++
            Nat.repr (regs.get ⟨5, by omega⟩)
        mac_address := registers_to_mac (regs.get ⟨6, by omega⟩)
          (regs.get ⟨7, by omega⟩) (regs.get ⟨8, by omega⟩) }
  else none

/-- Network-info section (coordinator.py, lines 128-137). -/
def parse_network_info (regs : List ℕ) : Data :=
  if h : 6 ≤ regs.length then
    [("ip_address", .s (registers_to_ip (regs.get ⟨0, by omega⟩) (regs.get ⟨1, by omega⟩))),
     ("subnet_mask", .s (registers_to_ip (regs.get ⟨2, by omega⟩) (regs.get ⟨3, by omega⟩))),
     ("gateway", .s (registers_to_ip (regs.get ⟨4, by omega⟩) (regs.get ⟨5, by omega⟩)))]
  else []

/-- System-status section (coordinator.py, lines 140-144). -/
def parse_system_status (regs : List ℕ) : Data :=
  if h : 2 ≤ regs.length then
    [("cpu_temperature", .q (scale_temperature (regs.get ⟨0, by omega⟩))),
     ("battery_voltage", .q (scale_voltage (regs.get ⟨1, by omega⟩)))]
  else []

/-- Regulation section (coordinator.py, lines 147-152). Note: the source
scales positions 1 and 2 with the unsigned `scale_temperature`. -/
def parse_regulation (regs : List ℕ) : Data :=
  if h : 3 ≤ regs.length then
    [("regulation_mode_current", .i (regs.get ⟨0, by omega⟩)),
     ("outdoor_temp_damped", .q (scale_temperature (regs.get ⟨1, by omega⟩))),
     ("outdoor_temp_composite", .q (scale_temperature (regs.get ⟨2, by omega⟩)))]
  else []

/-- Boiler-status section (coordinator.py, lines 155-170); position 3 is
skipped by the source. -/
def parse_boiler_status (regs : List ℕ) : Data :=
  if h : 10 ≤ regs.length then
    [("boiler_active_segments", .i (regs.get ⟨0, by omega⟩)),
     ("boiler_inactive_segments", .i (regs.get ⟨1, by omega⟩)),
     ("boiler_pressure", .q (scale_pressure (regs.get ⟨2, by omega⟩))),
     ("boiler_water_input_temp", .q (scale_temperature (regs.get ⟨4, by omega⟩))),
     ("boiler_water_return_temp", .q (scale_temperature (regs.get ⟨5, by omega⟩))),
     ("boiler_pump_power", .q (scale_percentage (regs.get ⟨6, by omega⟩))),
     ("boiler_heating_power", .q (scale_percentage (regs.get ⟨7, by omega⟩))),
     ("boiler_analog_value", .q (scale_voltage (regs.get ⟨8, by omega⟩))),
     ("boiler_pwm_value", .i (regs.get ⟨9, by omega⟩))]
  else []

/-- DHW-status section (coordinator.py, lines 173-177). -/
def parse_dhw_status (regs : List ℕ) : Data :=
  if h : 2 ≤ regs.length then
    [("dhw_state_heat", .b (decide (regs.get ⟨0, by omega⟩ ≠ 0))),
     ("dhw_temperature_current", .q (scale_temperature (regs.get ⟨1, by omega⟩)))]
  else []

/-- CH-status section, parametrized by circuit prefix: the CH1 block
(coordinator.py, lines 180-189) and CH2 block (lines 192-201) are
identical up to the `ch1`/`ch2` key prefix. Position 4 (pump power) is
stored raw, unscaled, by the source. -/
def parse_ch_status (pre : String) (regs : List ℕ) : Data :=
  if h : 7 ≤ regs.length then
    [(pre ++ "_state_heat", .b (decide (regs.get ⟨0, by omega⟩ ≠ 0))),
     (pre ++ "_temperature_current", .q (scale_temperature (regs.get ⟨1, by omega⟩))),
     (pre ++ "_water_input_temp", .q (scale_temperature (regs.get ⟨2, by omega⟩))),
     (pre ++ "_water_return_temp", .q (scale_temperature (regs.get ⟨3, by omega⟩))),
     (pre ++ "_pump_power", .i (regs.get ⟨4, by omega⟩)),
     (pre ++ "_humidity", .q (scale_percentage (regs.get ⟨5, by omega⟩))),
     (pre ++ "_co2", .q (scale_percentage (regs.get ⟨6, by omega⟩)))]
  else []

/-- System-alerts section (coordinator.py, lines 204-209). -/
def parse_system_alerts (regs : List ℕ) : Data :=
  if h : 2 ≤ regs.length then
    [("system_attention",
      .i (registers_to_uint32 (regs.get ⟨0, by omega⟩) (regs.get ⟨1, by omega⟩)))]
  else []

/-- Regulation-settings section (coordinator.py, lines 212-220). Note: the
source scales positions 4 and 5 with the unsigned `scale_temperature`. -/
def parse_regulation_settings (regs : List ℕ) : Data :=
  if h : 6 ≤ regs.length then
    [("regulation_mode_user", .i (regs.get ⟨0, by omega⟩)),
     ("outdoor_temp_source", .i (regs.get ⟨1, by omega⟩)),
     ("building_momentum", .i (regs.get ⟨2, by omega⟩)),
     ("composite_filter_ratio", .q (scale_ratio (regs.get ⟨3, by omega⟩))),
     ("changeover_temp", .q (scale_temperature (regs.get ⟨4, by omega⟩))),
     ("outdoor_temp_manual", .q (scale_temperature (regs.get ⟨5, by omega⟩)))]
  else []

/-- Boiler-settings section (coordinator.py, lines 223-240). -/
def parse_boiler_settings (regs : List ℕ) : Data :=
  if h : 13 ≤ regs.length then
    [("boiler_load_release", .i (regs.get ⟨0, by omega⟩)),
     ("boiler_hdo_high_tariff", .i (regs.get ⟨1, by omega⟩)),
     ("boiler_outdoor_temp_correction", .q (scale_temperature (regs.get ⟨2, by omega⟩))),
     ("boiler_total_energy", .i (regs.get ⟨3, by omega⟩)),
     ("boiler_water_setpoint", .q (scale_temperature (regs.get ⟨4, by omega⟩))),
     ("boiler_water_temp_max", .q (scale_temperature (regs.get ⟨5, by omega⟩))),
     ("boiler_water_temp_min", .q (scale_temperature (regs.get ⟨6, by omega⟩)))]
  else []

/-- DHW-settings section (coordinator.py, lines 243-256); position 5 is the
documented gap. -/
def parse_dhw_settings (regs : List ℕ) : Data :=
  if h : 8 ≤ regs.length then
    [("dhw_mode", .i (regs.get ⟨0, by omega⟩)),
     ("dhw_temperature_desired", .q (scale_temperature (regs.get ⟨1, by omega⟩))),
     ("dhw_temperature_min", .q (scale_temperature (regs.get ⟨2, by omega⟩))),
     ("dhw_temperature_max", .q (scale_temperature (regs.get ⟨3, by omega⟩))),
     ("dhw_temperature_manual", .q (scale_temperature (regs.get ⟨4, by omega⟩))),
     ("dhw_hysteresis", .q (scale_temperature (regs.get ⟨6, by omega⟩))),
     ("dhw_regulation_strategy", .i (regs.get ⟨7, by omega⟩))]
  else []

/-- CH-settings section, parametrized by circuit prefix: the CH1 block
(coordinator.py, lines 259-297) and CH2 block (lines 300-338) are
identical up to the `ch1`/`ch2` key prefix. Note: the source scales the
equitherm offset and the temperature/humidity corrections with the
unsigned scalers and stores the equitherm slope raw. -/
def parse_ch_settings (pre : String) (regs : List ℕ) : Data :=
  if h : 20 ≤ regs.length then
    [(pre ++ "_mode", .i (regs.get ⟨0, by omega⟩)),
     (pre ++ "_temperature_desired", .q (scale_temperature (regs.get ⟨1, by omega⟩))),
     (pre ++ "_temperature_min", .q (scale_temperature (regs.get ⟨2, by omega⟩))),
     (pre ++ "_temperature_max", .q (scale_temperature (regs.get ⟨3, by omega⟩))),
     (pre ++ "_temperature_manual", .q (scale_temperature (regs.get ⟨4, by omega⟩))),
     (pre ++ "_temperature_antifrost", .q (scale_temperature (regs.get ⟨5, by omega⟩))),
     (pre ++ "_hysteresis", .q (scale_temperature (regs.get ⟨6, by omega⟩))),
     (pre ++ "_regulation_strategy", .i (regs.get ⟨7, by omega⟩)),
     (pre ++ "_water_temp_min", .q (scale_temperature (regs.get ⟨8, by omega⟩))),
     (pre ++ "_water_temp_max", .q (scale_temperature (regs.get ⟨9, by omega⟩))),
     (pre ++ "_water_setpoint", .q (scale_temperature (regs.get ⟨10, by omega⟩))),
     (pre ++ "_equitherm_slope", .i (regs.get ⟨11, by omega⟩)),
     (pre ++ "_equitherm_offset", .q (scale_temperature (regs.get ⟨12, by omega⟩))),
     (pre ++ "_equitherm_room_effect", .i (regs.get ⟨13, by omega⟩)),
     (pre ++ "_threshold_setpoint", .q (scale_temperature (regs.get ⟨14, by omega⟩))),
     (pre ++ "_limit_heat_temp", .q (scale_temperature (regs.get ⟨15, by omega⟩))),
     (pre ++ "_optimal_start", .b (decide (regs.get ⟨16, by omega⟩ ≠ 0))),
     (pre ++ "_fast_cooldown", .b (decide (regs.get ⟨17, by omega⟩ ≠ 0))),
     (pre ++ "_temp_correction", .q (scale_temperature (regs.get ⟨18, by omega⟩))),
     (pre ++ "_humidity_correction", .q (scale_percentage (regs.get ⟨19, by omega⟩)))]
  else []

/-- System-control section (coordinator.py, lines 341-348): only indices
1, 3, 5, 6 and 9 are used. -/
def parse_system_control (regs : List ℕ) : Data :=
  if h : 10 ≤ regs.length then
    [("control_mode", .i (regs.get ⟨1, by omega⟩)),
     ("error_code", .i (regs.get ⟨3, by omega⟩)),
     ("master_fail_mode", .i (regs.get ⟨5, by omega⟩)),
     ("master_timeout", .i (regs.get ⟨6, by omega⟩)),
     ("circuit_mask", .i (regs.get ⟨9, by omega⟩))]
  else []

/-- The register list stored under `k`, when present. -/
def lookupRegs (raw : RawData) (k : String) : Option (List ℕ) :=
  match lookupKey k raw with
  | some (.regs l) => some l
  | _ => none

/-- One `if "group" in raw_data:` section of `_process_raw_data`. -/
def processSection (raw : RawData) (k : String) (parse : List ℕ → Data) : Data :=
  match lookupRegs raw k with
  | some regs => parse regs
  | none => []

/-- `_process_raw_data` (coordinator.py, lines 99-350), snapshot part: the
flat decoded mapping, sections in source order. -/
def process_raw_data (raw : RawData) : Data :=
  processSection raw "network_info" parse_network_info ++
  processSection raw "system_status" parse_system_status ++
  processSection raw "regulation" parse_regulation ++
  processSection raw "boiler_status" parse_boiler_status ++
  processSection raw "dhw_status" parse_dhw_status ++
  processSection raw "ch1_status" (parse_ch_status "ch1") ++
  processSection raw "ch2_status" (parse_ch_status "ch2") ++
  processSection raw "system_alerts" parse_system_alerts ++
  processSection raw "regulation_settings" parse_regulation_settings ++
  processSection raw "boiler_settings" parse_boiler_settings ++
  processSection raw "dhw_settings" parse_dhw_settings ++
  processSection raw "ch1_settings" (parse_ch_settings "ch1") ++
  processSection raw "ch2_settings" (parse_ch_settings "ch2") ++
  processSection raw "system_control" parse_system_control

/-- `_process_raw_data` (coordinator.py, lines 104-125), metadata side
output: the device metadata cached on the coordinator. -/
def process_device_meta (raw : RawData) : Option DeviceMeta :=
  match lookupRegs raw "device_info" with
  | some regs => parse_device_info regs
  | none => none

/-! ### Association-list lemmas -/

theorem lookupKey_append {α : Type} (k : String) (d1 d2 : List (String × α)) :
    lookupKey k (d1 ++ d2) =
      (lookupKey k d1).orElse fun _ => lookupKey k d2 := by
  induction d1 with
  | nil => simp [lookupKey]
  | cons kv t ih =>
    by_cases hk : kv.1 = k <;> simp [lookupKey, hk, ih, Option.orElse]

theorem lookupKey_ite {α : Type} (c : Prop) [Decidable c]
    (a b : List (String × α)) (k : String) :
    lookupKey k (if c then a else b) =
      if c then lookupKey k a else lookupKey k b := by
  split <;> rfl

theorem containsKey_append {α : Type} (d1 d2 : List (String × α)) (k : String) :
    containsKey (d1 ++ d2) k = (containsKey d1 k || containsKey d2 k) := by
  simp only [containsKey, lookupKey_append]
  cases lookupKey k d1 <;> simp [Option.orElse]

theorem containsKey_nil {α : Type} (k : String) :
    containsKey ([] : List (String × α)) k = false := rfl

theorem containsKey_cons {α : Type} (kv : String × α) (t : List (String × α))
    (k : String) :
    containsKey (kv :: t) k = (decide (kv.1 = k) || containsKey t k) := by
  by_cases h : kv.1 = k <;> simp [containsKey, lookupKey, h]

theorem containsKey_addIfAll (c : Bool) (kvs d : RawData) (k : String) :
    containsKey (addIfAll c kvs d) k =
      (containsKey d k || (c && containsKey kvs k)) := by
  cases c <;> simp [addIfAll, containsKey_append]

theorem containsKey_ite {α : Type} (c : Prop) [Decidable c]
    (a b : List (String × α)) (k : String) :
    containsKey (if c then a else b) k =
      if c then containsKey a k else containsKey b k := by
  split <;> rfl

/-- Patch applied by `updateRegs` to the stored entry. -/
def patchEntry (f : List ℕ → List ℕ) : RawEntry → RawEntry
  | .regs l => .regs (f l)
  | e => e

theorem lookupKey_updateRegs_ne (d : RawData) (k k' : String)
    (f : List ℕ → List ℕ) (h : k' ≠ k) :
    lookupKey k' (updateRegs d k f) = lookupKey k' d := by
  induction d with
  | nil => rfl
  | cons kv t ih =>
    obtain ⟨k1, v1⟩ := kv
    simp only [updateRegs]
    by_cases hk : k1 = k
    · subst hk
      rw [if_pos rfl]
      simp only [lookupKey]
      rw [if_neg (fun he : k1 = k' => h he.symm),
        if_neg (fun he : k1 = k' => h he.symm)]
      exact ih
    · rw [if_neg hk]
      simp only [lookupKey]
      by_cases hx : k1 = k'
      · rw [if_pos hx, if_pos hx]
      · rw [if_neg hx, if_neg hx]; exact ih

theorem lookupKey_updateRegs_eq (d : RawData) (k : String)
    (f : List ℕ → List ℕ) :
    lookupKey k (updateRegs d k f) = (lookupKey k d).map (patchEntry f) := by
  induction d with
  | nil => rfl
  | cons kv t ih =>
    obtain ⟨k1, v1⟩ := kv
    simp only [updateRegs]
    by_cases hk : k1 = k
    · rw [if_pos hk]
      simp only [lookupKey]
      rw [if_pos hk, if_pos hk]
      rfl
    · rw [if_neg hk]
      simp only [lookupKey]
      rw [if_neg hk, if_neg hk]
      exact ih

theorem containsKey_updateRegs (d : RawData) (k k' : String)
    (f : List ℕ → List ℕ) :
    containsKey (updateRegs d k f) k' = containsKey d k' := by
  by_cases h : k' = k
  · subst h
    simp [containsKey, lookupKey_updateRegs_eq]
  · simp [containsKey, lookupKey_updateRegs_ne _ _ _ _ h]

theorem pyGetFlag_append (d1 d2 : RawData) (k : String) :
    pyGetFlag (d1 ++ d2) k =
      if containsKey d1 k then pyGetFlag d1 k else pyGetFlag d2 k := by
  simp only [pyGetFlag, containsKey, lookupKey_append]
  cases lookupKey k d1 <;> simp [Option.orElse]

theorem pyGetFlag_ite (c : Prop) [Decidable c] (a b : RawData) (k : String) :
    pyGetFlag (if c then a else b) k =
      if c then pyGetFlag a k else pyGetFlag b k := by
  split <;> rfl

theorem pyGetFlag_nil (k : String) : pyGetFlag [] k = false := rfl

theorem pyGetFlag_cons_flag (k1 : String) (b : Bool) (t : RawData) (k : String) :
    pyGetFlag ((k1, RawEntry.flag b) :: t) k =
      if k1 = k then b else pyGetFlag t k := by
  by_cases h : k1 = k <;> simp [pyGetFlag, lookupKey, h]

theorem pyGetFlag_cons_regs (k1 : String) (l : List ℕ) (t : RawData) (k : String) :
    pyGetFlag ((k1, RawEntry.regs l) :: t) k =
      if k1 = k then false else pyGetFlag t k := by
  by_cases h : k1 = k <;> simp [pyGetFlag, lookupKey, h]

theorem pyGetFlag_updateRegs (d : RawData) (k k' : String)
    (f : List ℕ → List ℕ) (h : k' ≠ k) :
    pyGetFlag (updateRegs d k f) k' = pyGetFlag d k' := by
  simp [pyGetFlag, lookupKey_updateRegs_ne _ _ _ _ h]


/-! ### Key-presence characterization of `read_all_data` -/

theorem memRaw_dhw_status (ri rh : ℕ → ℕ → Option (List ℕ)) :
    containsKey (read_all_data ri rh) "dhw_status" = truthy (ri 101 2) := by
  simp +decide [read_all_data, addIfAll, containsKey_ite, containsKey_append,
    containsKey_cons, containsKey_nil, containsKey_updateRegs,
    pyGetFlag_ite, pyGetFlag_append, pyGetFlag_cons_flag, pyGetFlag_cons_regs,
    pyGetFlag_nil, pyGetFlag_updateRegs]

theorem memRaw_ch1_status (ri rh : ℕ → ℕ → Option (List ℕ)) :
    containsKey (read_all_data ri rh) "ch1_status" = truthy (ri 200 7) := by
  simp +decide [read_all_data, addIfAll, containsKey_ite, containsKey_append,
    containsKey_cons, containsKey_nil, containsKey_updateRegs,
    pyGetFlag_ite, pyGetFlag_append, pyGetFlag_cons_flag, pyGetFlag_cons_regs,
    pyGetFlag_nil, pyGetFlag_updateRegs]

theorem memRaw_system_alerts (ri rh : ℕ → ℕ → Option (List ℕ)) :
    containsKey (read_all_data ri rh) "system_alerts" = truthy (rh 1001 2) := by
  simp +decide [read_all_data, addIfAll, containsKey_ite, containsKey_append,
    containsKey_cons, containsKey_nil, containsKey_updateRegs,
    pyGetFlag_ite, pyGetFlag_append, pyGetFlag_cons_flag, pyGetFlag_cons_regs,
    pyGetFlag_nil, pyGetFlag_updateRegs]

theorem memRaw_ethernet_config (ri rh : ℕ → ℕ → Option (List ℕ)) :
    containsKey (read_all_data ri rh) "ethernet_config" = truthy (rh 1010 9) := by
  simp +decide [read_all_data, addIfAll, containsKey_ite, containsKey_append,
    containsKey_cons, containsKey_nil, containsKey_updateRegs,
    pyGetFlag_ite, pyGetFlag_append, pyGetFlag_cons_flag, pyGetFlag_cons_regs,
    pyGetFlag_nil, pyGetFlag_updateRegs]

theorem memRaw_boiler_settings (ri rh : ℕ → ℕ → Option (List ℕ)) :
    containsKey (read_all_data ri rh) "boiler_settings" = truthy (rh 1050 13) := by
  simp +decide [read_all_data, addIfAll, containsKey_ite, containsKey_append,
    containsKey_cons, containsKey_nil, containsKey_updateRegs,
    pyGetFlag_ite, pyGetFlag_append, pyGetFlag_cons_flag, pyGetFlag_cons_regs,
    pyGetFlag_nil, pyGetFlag_updateRegs]

theorem memRaw_ch1_settings (ri rh : ℕ → ℕ → Option (List ℕ)) :
    containsKey (read_all_data ri rh) "ch1_settings" = truthy (rh 1200 20) := by
  simp +decide [read_all_data, addIfAll, containsKey_ite, containsKey_append,
    containsKey_cons, containsKey_nil, containsKey_updateRegs,
    pyGetFlag_ite, pyGetFlag_append, pyGetFlag_cons_flag, pyGetFlag_cons_regs,
    pyGetFlag_nil, pyGetFlag_updateRegs]

theorem memRaw_system_control (ri rh : ℕ → ℕ → Option (List ℕ)) :
    containsKey (read_all_data ri rh) "system_control" = truthy (rh 3001 10) := by
  simp +decide [read_all_data, addIfAll, containsKey_ite, containsKey_append,
    containsKey_cons, containsKey_nil, containsKey_updateRegs,
    pyGetFlag_ite, pyGetFlag_append, pyGetFlag_cons_flag, pyGetFlag_cons_regs,
    pyGetFlag_nil, pyGetFlag_updateRegs]

theorem memRaw_ch2_available (ri rh : ℕ → ℕ → Option (List ℕ)) :
    containsKey (read_all_data ri rh) "ch2_available" = truthy (ri 300 7) := by
  simp +decide [read_all_data, addIfAll, containsKey_ite, containsKey_append,
    containsKey_cons, containsKey_nil, containsKey_updateRegs,
    pyGetFlag_ite, pyGetFlag_append, pyGetFlag_cons_flag, pyGetFlag_cons_regs,
    pyGetFlag_nil, pyGetFlag_updateRegs]

theorem memRaw_device_info (ri rh : ℕ → ℕ → Option (List ℕ)) :
    containsKey (read_all_data ri rh) "device_info" =
      (truthy (ri 1 17) && truthy (ri 20 2) && truthy (ri 30 3) &&
        truthy (ri 40 10)) := by
  simp +decide [read_all_data, addIfAll, containsKey_ite, containsKey_append,
    containsKey_cons, containsKey_nil, containsKey_updateRegs,
    pyGetFlag_ite, pyGetFlag_append, pyGetFlag_cons_flag, pyGetFlag_cons_regs,
    pyGetFlag_nil, pyGetFlag_updateRegs]

theorem memRaw_network_info (ri rh : ℕ → ℕ → Option (List ℕ)) :
    containsKey (read_all_data ri rh) "network_info" =
      (truthy (ri 1 17) && truthy (ri 20 2) && truthy (ri 30 3) &&
        truthy (ri 40 10)) := by
  simp +decide [read_all_data, addIfAll, containsKey_ite, containsKey_append,
    containsKey_cons, containsKey_nil, containsKey_updateRegs,
    pyGetFlag_ite, pyGetFlag_append, pyGetFlag_cons_flag, pyGetFlag_cons_regs,
    pyGetFlag_nil, pyGetFlag_updateRegs]

theorem memRaw_system_status (ri rh : ℕ → ℕ → Option (List ℕ)) :
    containsKey (read_all_data ri rh) "system_status" =
      (truthy (ri 1 17) && truthy (ri 20 2) && truthy (ri 30 3) &&
        truthy (ri 40 10)) := by
  simp +decide [read_all_data, addIfAll, containsKey_ite, containsKey_append,
    containsKey_cons, containsKey_nil, containsKey_updateRegs,
    pyGetFlag_ite, pyGetFlag_append, pyGetFlag_cons_flag, pyGetFlag_cons_regs,
    pyGetFlag_nil, pyGetFlag_updateRegs]

theorem memRaw_regulation (ri rh : ℕ → ℕ → Option (List ℕ)) :
    containsKey (read_all_data ri rh) "regulation" =
      (truthy (ri 1 17) && truthy (ri 20 2) && truthy (ri 30 3) &&
        truthy (ri 40 10)) := by
  simp +decide [read_all_data, addIfAll, containsKey_ite, containsKey_append,
    containsKey_cons, containsKey_nil, containsKey_updateRegs,
    pyGetFlag_ite, pyGetFlag_append, pyGetFlag_cons_flag, pyGetFlag_cons_regs,
    pyGetFlag_nil, pyGetFlag_updateRegs]

theorem memRaw_boiler_status (ri rh : ℕ → ℕ → Option (List ℕ)) :
    containsKey (read_all_data ri rh) "boiler_status" =
      (truthy (ri 1 17) && truthy (ri 20 2) && truthy (ri 30 3) &&
        truthy (ri 40 10)) := by
  simp +decide [read_all_data, addIfAll, containsKey_ite, containsKey_append,
    containsKey_cons, containsKey_nil, containsKey_updateRegs,
    pyGetFlag_ite, pyGetFlag_append, pyGetFlag_cons_flag, pyGetFlag_cons_regs,
    pyGetFlag_nil, pyGetFlag_updateRegs]

theorem memRaw_ch2_status (ri rh : ℕ → ℕ → Option (List ℕ)) :
    containsKey (read_all_data ri rh) "ch2_status" =
      (truthy (ri 300 7) && ch2_probe (getL (ri 300 7))) := by
  simp +decide [read_all_data, addIfAll, containsKey_ite, containsKey_append,
    containsKey_cons, containsKey_nil, containsKey_updateRegs,
    pyGetFlag_ite, pyGetFlag_append, pyGetFlag_cons_flag, pyGetFlag_cons_regs,
    pyGetFlag_nil, pyGetFlag_updateRegs]

theorem memRaw_ch2_settings (ri rh : ℕ → ℕ → Option (List ℕ)) :
    containsKey (read_all_data ri rh) "ch2_settings" =
      ((truthy (ri 300 7) && ch2_probe (getL (ri 300 7))) &&
        truthy (rh 1300 20)) := by
  simp +decide [read_all_data, addIfAll, containsKey_ite, containsKey_append,
    containsKey_cons, containsKey_nil, containsKey_updateRegs,
    pyGetFlag_ite, pyGetFlag_append, pyGetFlag_cons_flag, pyGetFlag_cons_regs,
    pyGetFlag_nil, pyGetFlag_updateRegs]

theorem memRaw_regulation_settings (ri rh : ℕ → ℕ → Option (List ℕ)) :
    containsKey (read_all_data ri rh) "regulation_settings" =
      (truthy (rh 1030 6) || truthy (rh 1040 1)) := by
  simp +decide [read_all_data, addIfAll, containsKey_ite, containsKey_append,
    containsKey_cons, containsKey_nil, containsKey_updateRegs,
    pyGetFlag_ite, pyGetFlag_append, pyGetFlag_cons_flag, pyGetFlag_cons_regs,
    pyGetFlag_nil, pyGetFlag_updateRegs]
  exact Bool.or_comm _ _

theorem memRaw_dhw_settings (ri rh : ℕ → ℕ → Option (List ℕ)) :
    containsKey (read_all_data ri rh) "dhw_settings" =
      (truthy (rh 1100 5) || truthy (rh 1106 2)) := by
  simp +decide [read_all_data, addIfAll, containsKey_ite, containsKey_append,
    containsKey_cons, containsKey_nil, containsKey_updateRegs,
    pyGetFlag_ite, pyGetFlag_append, pyGetFlag_cons_flag, pyGetFlag_cons_regs,
    pyGetFlag_nil, pyGetFlag_updateRegs]
  exact Bool.or_comm _ _


/-! ### Further helper lemmas -/

theorem pyTrunc_div_ten_mul_ten (k : ℕ) : pyTrunc ((k : ℚ) / 10 * 10) = k := by
  have h : ((k : ℚ) / 10) * 10 = (k : ℚ) := by
    rw [div_mul_cancel₀]
    norm_num
  rw [h]
  unfold pyTrunc
  rw [if_neg (not_lt.mpr (by positivity))]
  exact_mod_cast Int.floor_natCast k

theorem ch2_probe_false_iff (l : List ℕ) :
    ch2_probe l = false ↔ ∀ v ∈ l, v = 0 ∨ v = 65535 := by
  rw [← Bool.not_eq_true]
  simp only [ch2_probe, List.any_eq_true, Bool.and_eq_true, decide_eq_true_eq,
    not_exists]
  push_neg
  exact ⟨fun h v hv => or_iff_not_imp_left.mpr (h v hv),
    fun h v hv h0 => (h v hv).resolve_left h0⟩

theorem lookupKey_ch2_available (ri rh : ℕ → ℕ → Option (List ℕ))
    (b : List ℕ) (hb : ri 300 7 = some b) (hne : b ≠ []) :
    lookupKey "ch2_available" (read_all_data ri rh) =
      some (.flag (ch2_probe b)) := by
  cases hcp : ch2_probe b <;>
    simp +decide [read_all_data, addIfAll, lookupKey_ite, lookupKey_append,
      lookupKey_updateRegs_ne, hb, hne, truthy, getL, lookupKey, Option.orElse,
      containsKey_ite, containsKey_append, containsKey_cons, containsKey_nil,
      containsKey_updateRegs, pyGetFlag_ite, pyGetFlag_append,
      pyGetFlag_cons_flag, pyGetFlag_cons_regs, pyGetFlag_nil,
      pyGetFlag_updateRegs, hcp]

theorem lookupKey_regulation_settings_fallback (ri rh : ℕ → ℕ → Option (List ℕ))
    (h6a : truthy (rh 1030 6) = false) (h6b : truthy (rh 1040 1) = true) :
    lookupKey "regulation_settings" (read_all_data ri rh) =
      some (.regs ([0, 0, 0, 0, 0, 0, 0, 0, 0, 0] ++ getL (rh 1040 1))) := by
  simp +decide [read_all_data, addIfAll, lookupKey_ite, lookupKey_append,
    lookupKey_updateRegs_ne, h6a, h6b, lookupKey, Option.orElse,
    containsKey_ite, containsKey_append, containsKey_cons, containsKey_nil,
    containsKey_updateRegs, pyGetFlag_ite, pyGetFlag_append,
    pyGetFlag_cons_flag, pyGetFlag_cons_regs, pyGetFlag_nil,
    pyGetFlag_updateRegs]

theorem lookupKey_dhw_settings_fallback (ri rh : ℕ → ℕ → Option (List ℕ))
    (h8a : truthy (rh 1100 5) = false) (h8b : truthy (rh 1106 2) = true) :
    lookupKey "dhw_settings" (read_all_data ri rh) =
      some (.regs ([0, 0, 0, 0, 0, 0] ++ getL (rh 1106 2))) := by
  simp +decide [read_all_data, addIfAll, lookupKey_ite, lookupKey_append,
    lookupKey_updateRegs_ne, h8a, h8b, lookupKey, Option.orElse,
    containsKey_ite, containsKey_append, containsKey_cons, containsKey_nil,
    containsKey_updateRegs, pyGetFlag_ite, pyGetFlag_append,
    pyGetFlag_cons_flag, pyGetFlag_cons_regs, pyGetFlag_nil,
    pyGetFlag_updateRegs]

theorem lookupKey_processSection_none (raw : RawData) (k k' : String)
    (parse : List ℕ → Data) (h : ∀ regs, lookupKey k (parse regs) = none) :
    lookupKey k (processSection raw k' parse) = none := by
  unfold processSection
  cases lookupRegs raw k' <;> simp [h, lookupKey]

theorem snapshot_regulation_mode_user_zero (ri rh : ℕ → ℕ → Option (List ℕ))
    (h6a : truthy (rh 1030 6) = false) (h6b : truthy (rh 1040 1) = true) :
    lookupKey "regulation_mode_user" (process_raw_data (read_all_data ri rh)) =
      some (.i 0) := by
  have hni : ∀ regs, lookupKey "regulation_mode_user" (parse_network_info regs) = none := by
    intro regs; unfold parse_network_info; split <;> simp +decide [lookupKey]
  have hss : ∀ regs, lookupKey "regulation_mode_user" (parse_system_status regs) = none := by
    intro regs; unfold parse_system_status; split <;> simp +decide [lookupKey]
  have hrg : ∀ regs, lookupKey "regulation_mode_user" (parse_regulation regs) = none := by
    intro regs; unfold parse_regulation; split <;> simp +decide [lookupKey]
  have hbs : ∀ regs, lookupKey "regulation_mode_user" (parse_boiler_status regs) = none := by
    intro regs; unfold parse_boiler_status; split <;> simp +decide [lookupKey]
  have hds : ∀ regs, lookupKey "regulation_mode_user" (parse_dhw_status regs) = none := by
    intro regs; unfold parse_dhw_status; split <;> simp +decide [lookupKey]
  have hc1 : ∀ regs, lookupKey "regulation_mode_user" (parse_ch_status "ch1" regs) = none := by
    intro regs; unfold parse_ch_status; split <;> simp +decide [lookupKey]
  have hc2 : ∀ regs, lookupKey "regulation_mode_user" (parse_ch_status "ch2" regs) = none := by
    intro regs; unfold parse_ch_status; split <;> simp +decide [lookupKey]
  have hsa : ∀ regs, lookupKey "regulation_mode_user" (parse_system_alerts regs) = none := by
    intro regs; unfold parse_system_alerts; split <;> simp +decide [lookupKey]
  have hrs : lookupKey "regulation_mode_user"
      (processSection (read_all_data ri rh) "regulation_settings"
        parse_regulation_settings) = some (.i 0) := by
    unfold processSection lookupRegs
    rw [lookupKey_regulation_settings_fallback ri rh h6a h6b]
    dsimp only
    unfold parse_regulation_settings
    rw [dif_pos (by simp)]
    simp +decide [lookupKey]
  unfold process_raw_data
  simp only [lookupKey_append,
    lookupKey_processSection_none _ _ _ _ hni,
    lookupKey_processSection_none _ _ _ _ hss,
    lookupKey_processSection_none _ _ _ _ hrg,
    lookupKey_processSection_none _ _ _ _ hbs,
    lookupKey_processSection_none _ _ _ _ hds,
    lookupKey_processSection_none _ _ _ _ hc1,
    lookupKey_processSection_none _ _ _ _ hc2,
    lookupKey_processSection_none _ _ _ _ hsa,
    hrs, Option.orElse]

theorem ip_encode_ok_shape (s : String) (r : ℕ × ℕ)
    (h : ip_to_registers s = .ok r) :
    ∃ parts, (pySplitDot s).mapM pyParseNat = some parts ∧
      ∃ hp : 3 < parts.length,
        r = (((parts.get ⟨0, by omega⟩) <<< 8) ||| parts.get ⟨1, by omega⟩,
             ((parts.get ⟨2, by omega⟩) <<< 8) ||| parts.get ⟨3, by omega⟩) := by
  unfold ip_to_registers at h
  cases hm : (pySplitDot s).mapM pyParseNat with
  | none => rw [hm] at h; exact absurd h (by simp)
  | some parts =>
    rw [hm] at h
    dsimp only at h
    by_cases hp : 3 < parts.length
    · rw [dif_pos hp] at h
      injection h with h1
      exact ⟨parts, rfl, hp, h1.symm⟩
    · rw [dif_neg hp] at h; exact absurd h (by simp)


/-! ### Claim theorems -/

/-- Claim C1 (code bug): the claim says the regulation batch positions 1
and 2 (outdoor-temp-damped, outdoor-temp-composite) are decoded through
the two's-complement interpretation and then divided by 10, so that raw
65516 decodes to -2.0.  The coordinator instead decodes them with the
unsigned `scale_temperature`: on the regulation batch `[2, 65516, 65516]`
both fields decode to 6551.6 (= 32758/5), not -2.0, while
`scale_signed_temperature` — which the repository's own tests and the
scaling docstrings prescribe for these fields — gives -2.0. -/
theorem regulation_outdoor_temps_decoded_unsigned :
    lookupKey "outdoor_temp_damped" (parse_regulation [2, 65516, 65516]) =
      some (.q (32758 / 5)) ∧
    lookupKey "outdoor_temp_composite" (parse_regulation [2, 65516, 65516]) =
      some (.q (32758 / 5)) ∧
    scale_signed_temperature 65516 = -2 ∧
    (32758 / 5 : ℚ) ≠ -2 := by
  refine ⟨?_, ?_, ?_, by norm_num⟩
  · unfold parse_regulation
    rw [dif_pos (by norm_num)]
    simp +decide [lookupKey]
    norm_num [scale_temperature]
  · unfold parse_regulation
    rw [dif_pos (by norm_num)]
    simp +decide [lookupKey]
    norm_num [scale_temperature]
  · unfold scale_signed_temperature to_signed_int16
    norm_num

/-- Claim C2 (counterexample): the claim says `ch2_available` is false
exactly when the probe content is all zeros or all 0xFFFF, and that a
mixture of 0 and 0xFFFF sets it true.  The probe `[0, 0xFFFF, 0, 0, 0, 0,
0]` is neither all zeros nor all 0xFFFF, yet the source's
`any(val != 0 and val != 0xFFFF ...)` yields false. -/
theorem ch2_capability_mixed_cex :
    ch2_probe [0, 65535, 0, 0, 0, 0, 0] = false ∧
    ¬(∀ v ∈ [0, 65535, 0, 0, 0, 0, 0], v = (0 : ℕ)) ∧
    ¬(∀ v ∈ [0, 65535, 0, 0, 0, 0, 0], v = (65535 : ℕ)) := by
  decide

/-- Claim C2 (amended): for every 7-register result of the second-circuit
probe read, `ch2_available` is false exactly when EVERY register is 0 or
0xFFFF (not only for all-zeros or all-0xFFFF content); any register that
differs from both sets it true, and the CH2 settings block is read only
when the flag is true and that read succeeds. -/
theorem ch2_capability_amended (ri rh : ℕ → ℕ → Option (List ℕ))
    (b : List ℕ) (hb : ri 300 7 = some b) (hlen : b.length = 7) :
    (lookupKey "ch2_available" (read_all_data ri rh) =
      some (.flag (ch2_probe b))) ∧
    (ch2_probe b = false ↔ ∀ v ∈ b, v = 0 ∨ v = 65535) ∧
    (containsKey (read_all_data ri rh) "ch2_settings" =
      (ch2_probe b && truthy (rh 1300 20))) := by
  have hne : b ≠ [] := by
    intro h
    rw [h] at hlen
    simp at hlen
  refine ⟨lookupKey_ch2_available ri rh b hb hne, ch2_probe_false_iff b, ?_⟩
  rw [memRaw_ch2_settings, hb]
  cases b with
  | nil => exact absurd rfl hne
  | cons x t => simp [truthy, getL]

/-- Oracle for the C2 witness: the CH2 probe read returns
`[1, 0, 0, 0, 0, 0, 0]`, every other read fails. -/
def c2ProbeRi : ℕ → ℕ → Option (List ℕ) := fun a c =>
  if a = 300 ∧ c = 7 then some [1, 0, 0, 0, 0, 0, 0] else none

/-- Oracle for the C2 witness: every holding-register read fails. -/
def c2NoneRh : ℕ → ℕ → Option (List ℕ) := fun _ _ => none

/-- Witness for C2: at the concrete probe `[1, 0, 0, 0, 0, 0, 0]` the flag
is true and no CH2 settings entry appears (its read fails). -/
theorem ch2_capability_amended_witness :
    lookupKey "ch2_available" (read_all_data c2ProbeRi c2NoneRh) =
      some (.flag true) ∧
    containsKey (read_all_data c2ProbeRi c2NoneRh) "ch2_settings" = false := by
  obtain ⟨h1, _, h3⟩ :=
    ch2_capability_amended c2ProbeRi c2NoneRh [1, 0, 0, 0, 0, 0, 0] rfl rfl
  exact ⟨by rw [h1]; rfl, by rw [h3]; rfl⟩

/-- Claim C3: a `write_register` addressed inside the protected
holding-register range 1000..3999 performs exactly one password-handshake
write when the session is not authenticated and zero when it already is;
if the handshake write fails the data write returns failure and the
authenticated flag stays false. -/
theorem write_register_handshake_count (s : ClientState) (addr val : ℕ)
    (hsOk wrOk : Bool) (h1 : 1000 ≤ addr) (h2 : addr ≤ 3999) :
    (s.authenticated = true → (write_register s addr val hsOk wrOk).2.2 = 0) ∧
    (s.authenticated = false → (write_register s addr val hsOk wrOk).2.2 = 1) ∧
    (s.authenticated = false → hsOk = false →
      (write_register s addr val hsOk wrOk).1 = false ∧
      (write_register s addr val hsOk wrOk).2.1.authenticated = false) := by
  obtain ⟨a⟩ := s
  unfold write_register authenticate_system_access
  rw [if_pos ⟨h1, h2⟩]
  cases a <;> cases hsOk <;> simp

/-- Witness for C3 at address 3005: zero handshakes when authenticated,
one when not, and a failed handshake fails the write and leaves the flag
false. -/
theorem write_register_handshake_count_witness :
    ((1000 : ℕ) ≤ 3005 ∧ (3005 : ℕ) ≤ 3999) ∧
    (write_register ⟨true⟩ 3005 1 true true).2.2 = 0 ∧
    (write_register ⟨false⟩ 3005 1 true true).2.2 = 1 ∧
    ((write_register ⟨false⟩ 3005 1 false true).1 = false ∧
      (write_register ⟨false⟩ 3005 1 false true).2.1.authenticated = false) := by
  refine ⟨⟨by norm_num, by norm_num⟩, ?_, ?_, ?_⟩
  · exact (write_register_handshake_count ⟨true⟩ 3005 1 true true
      (by norm_num) (by norm_num)).1 rfl
  · exact (write_register_handshake_count ⟨false⟩ 3005 1 true true
      (by norm_num) (by norm_num)).2.1 rfl
  · exact (write_register_handshake_count ⟨false⟩ 3005 1 false true
      (by norm_num) (by norm_num)).2.2 rfl rfl

/-- Claim C4: for every value at 0.1 granularity in the unsigned 16-bit
range, decoding the encoding gives the value back exactly, for each
0.1-resolution unsigned codec (temperature, voltage, pressure, percentage,
ratio), with the encoder the reference behavior `int(value * 10)`. -/
theorem scaled_encode_decode_roundtrip (k : ℕ) (hk : k ≤ 65535) :
    scale_temperature (unscale_temperature ((k : ℚ) / 10)) = (k : ℚ) / 10 ∧
    scale_voltage (unscale_voltage ((k : ℚ) / 10)) = (k : ℚ) / 10 ∧
    scale_pressure (unscale_pressure ((k : ℚ) / 10)) = (k : ℚ) / 10 ∧
    scale_percentage (unscale_percentage ((k : ℚ) / 10)) = (k : ℚ) / 10 ∧
    scale_ratio (unscale_ratio ((k : ℚ) / 10)) = (k : ℚ) / 10 := by
  have _hk := hk
  unfold scale_temperature scale_voltage scale_pressure scale_percentage
    scale_ratio unscale_temperature unscale_voltage unscale_pressure
    unscale_percentage unscale_ratio
  rw [pyTrunc_div_ten_mul_ten]
  norm_num

/-- Witness for C4 at 21.5 degrees (raw 215). -/
theorem scaled_encode_decode_roundtrip_witness :
    (215 : ℕ) ≤ 65535 ∧
    scale_temperature (unscale_temperature ((215 : ℚ) / 10)) = (215 : ℚ) / 10 :=
  ⟨by norm_num, (scaled_encode_decode_roundtrip 215 (by norm_num)).1⟩

/-- Claim C5 (counterexample): the claim says `ip_to_registers` fails for
every string that is not exactly four dot-separated octets 0..255.  The
five-component `"1.2.3.4.5"` and the out-of-range `"300.2.3.4"` both
succeed: the source validates nothing. -/
theorem ip_to_registers_no_validation_cex :
    ip_to_registers "1.2.3.4.5" = .ok (258, 772) ∧
    pySplitDot "1.2.3.4.5" = ["1", "2", "3", "4", "5"] ∧
    ip_to_registers "300.2.3.4" = .ok (76802, 772) := by
  exact ⟨rfl, rfl, rfl⟩

/-- Claim C5 (amended): `ip_to_registers` succeeds exactly when every
dot-separated component parses as a nonnegative integer and at least four
components exist, returning the byte-packed pair of the first four —
octets above 255 and extra components are accepted, extras ignored; a
non-numeric component raises ValueError and fewer than four components
raises IndexError (there is no FormatError); on canonical dotted quads it
inverts `registers_to_ip`. -/
theorem ip_to_registers_amended :
    (∀ s r, ip_to_registers s = .ok r →
      ∃ parts, (pySplitDot s).mapM pyParseNat = some parts ∧
        ∃ hp : 3 < parts.length,
          r = (((parts.get ⟨0, by omega⟩) <<< 8) ||| parts.get ⟨1, by omega⟩,
               ((parts.get ⟨2, by omega⟩) <<< 8) ||| parts.get ⟨3, by omega⟩)) ∧
    ip_to_registers "1.2.3" = .error .indexError ∧
    ip_to_registers "a.b.c.d" = .error .valueError ∧
    ip_to_registers (registers_to_ip 49320 356) = .ok (49320, 356) ∧
    registers_to_ip 49320 356 = "192.168.1.100" :=
  ⟨ip_encode_ok_shape, rfl, rfl, rfl, rfl⟩

/-- Witness for C5 at the canonical dotted quad `"192.168.1.100"`. -/
theorem ip_to_registers_amended_witness :
    ∃ parts, (pySplitDot "192.168.1.100").mapM pyParseNat = some parts ∧
      ∃ hp : 3 < parts.length,
        ((49320, 356) : ℕ × ℕ) =
          (((parts.get ⟨0, by omega⟩) <<< 8) ||| parts.get ⟨1, by omega⟩,
           ((parts.get ⟨2, by omega⟩) <<< 8) ||| parts.get ⟨3, by omega⟩) :=
  ip_to_registers_amended.1 "192.168.1.100" (49320, 356) rfl


/-- Oracle for the C6 counterexample and witness: every input-register
read fails. -/
def c6NoneRi : ℕ → ℕ → Option (List ℕ) := fun _ _ => none

/-- Oracle for the C6 counterexample and witness: the supplementary
regulation-settings read (register 1040) returns `[7]`, every other
holding-register read — including the main span 1030-1035 — fails. -/
def c6SupRh : ℕ → ℕ → Option (List ℕ) := fun a c =>
  if a = 1040 ∧ c = 1 then some [7] else none

/-- Claim C6 (counterexample): the claim says a group whose wire read
failed contributes no synthesized defaults, and no field is reported as
zero merely because its registers were never read.  With the 1030-1035
read failed and only the 1040 read succeeding, `read_all_data` stores ten
zero placeholders and the snapshot reports `regulation_mode_user = 0`
although its register was never read. -/
theorem snapshot_zero_synthesis_cex :
    c6SupRh 1030 6 = none ∧
    lookupKey "regulation_settings" (read_all_data c6NoneRi c6SupRh) =
      some (.regs [0, 0, 0, 0, 0, 0, 0, 0, 0, 0, 7]) ∧
    lookupKey "regulation_mode_user"
      (process_raw_data (read_all_data c6NoneRi c6SupRh)) = some (.i 0) :=
  ⟨rfl, rfl, rfl⟩

/-- Claim C6 (amended): a field value appears in the decoded snapshot only
if a wire read contributing to its batch group succeeded — except for the
regulation-settings and DHW-settings merge paths: when the main span read
(1030-1035 resp. 1100-1104) fails but the supplementary read (1040 resp.
1106-1107) succeeds, the group is synthesized with zero placeholders for
the failed span and its fields are reported as zero. -/
theorem snapshot_no_defaults_amended (ri rh : ℕ → ℕ → Option (List ℕ)) :
    (containsKey (read_all_data ri rh) "dhw_status" = truthy (ri 101 2)) ∧
    (containsKey (read_all_data ri rh) "ch1_status" = truthy (ri 200 7)) ∧
    (containsKey (read_all_data ri rh) "system_alerts" = truthy (rh 1001 2)) ∧
    (containsKey (read_all_data ri rh) "ethernet_config" = truthy (rh 1010 9)) ∧
    (containsKey (read_all_data ri rh) "boiler_settings" = truthy (rh 1050 13)) ∧
    (containsKey (read_all_data ri rh) "ch1_settings" = truthy (rh 1200 20)) ∧
    (containsKey (read_all_data ri rh) "system_control" = truthy (rh 3001 10)) ∧
    (truthy (rh 1030 6) = false → truthy (rh 1040 1) = true →
      lookupKey "regulation_settings" (read_all_data ri rh) =
        some (.regs ([0, 0, 0, 0, 0, 0, 0, 0, 0, 0] ++ getL (rh 1040 1))) ∧
      lookupKey "regulation_mode_user"
        (process_raw_data (read_all_data ri rh)) = some (.i 0)) ∧
    (truthy (rh 1100 5) = false → truthy (rh 1106 2) = true →
      lookupKey "dhw_settings" (read_all_data ri rh) =
        some (.regs ([0, 0, 0, 0, 0, 0] ++ getL (rh 1106 2)))) :=
  ⟨memRaw_dhw_status ri rh, memRaw_ch1_status ri rh, memRaw_system_alerts ri rh,
    memRaw_ethernet_config ri rh, memRaw_boiler_settings ri rh,
    memRaw_ch1_settings ri rh, memRaw_system_control ri rh,
    fun h6a h6b => ⟨lookupKey_regulation_settings_fallback ri rh h6a h6b,
      snapshot_regulation_mode_user_zero ri rh h6a h6b⟩,
    fun h8a h8b => lookupKey_dhw_settings_fallback ri rh h8a h8b⟩

/-- Witness for C6 at the concrete oracle where only the 1040 read
succeeds. -/
theorem snapshot_no_defaults_amended_witness :
    lookupKey "regulation_settings" (read_all_data c6NoneRi c6SupRh) =
      some (.regs ([0, 0, 0, 0, 0, 0, 0, 0, 0, 0] ++ getL (c6SupRh 1040 1))) ∧
    lookupKey "regulation_mode_user"
      (process_raw_data (read_all_data c6NoneRi c6SupRh)) = some (.i 0) :=
  (snapshot_no_defaults_amended c6NoneRi c6SupRh).2.2.2.2.2.2.2.1 rfl rfl

/-- Claim C7: for every combination of per-span wire-read outcomes,
`read_all_data` (a total function of the read oracles in this model)
returns a mapping whose entries are characterized exactly by which reads
returned data: each group key is present precisely when its defining
reads succeeded, partial results are kept, and failed spans are omitted
rather than failing the whole call. -/
theorem read_all_data_partial_characterization (ri rh : ℕ → ℕ → Option (List ℕ)) :
    (containsKey (read_all_data ri rh) "device_info" =
      (truthy (ri 1 17) && truthy (ri 20 2) && truthy (ri 30 3) &&
        truthy (ri 40 10))) ∧
    (containsKey (read_all_data ri rh) "network_info" =
      (truthy (ri 1 17) && truthy (ri 20 2) && truthy (ri 30 3) &&
        truthy (ri 40 10))) ∧
    (containsKey (read_all_data ri rh) "system_status" =
      (truthy (ri 1 17) && truthy (ri 20 2) && truthy (ri 30 3) &&
        truthy (ri 40 10))) ∧
    (containsKey (read_all_data ri rh) "regulation" =
      (truthy (ri 1 17) && truthy (ri 20 2) && truthy (ri 30 3) &&
        truthy (ri 40 10))) ∧
    (containsKey (read_all_data ri rh) "boiler_status" =
      (truthy (ri 1 17) && truthy (ri 20 2) && truthy (ri 30 3) &&
        truthy (ri 40 10))) ∧
    (containsKey (read_all_data ri rh) "dhw_status" = truthy (ri 101 2)) ∧
    (containsKey (read_all_data ri rh) "ch1_status" = truthy (ri 200 7)) ∧
    (containsKey (read_all_data ri rh) "ch2_status" =
      (truthy (ri 300 7) && ch2_probe (getL (ri 300 7)))) ∧
    (containsKey (read_all_data ri rh) "ch2_available" = truthy (ri 300 7)) ∧
    (containsKey (read_all_data ri rh) "system_alerts" = truthy (rh 1001 2)) ∧
    (containsKey (read_all_data ri rh) "ethernet_config" = truthy (rh 1010 9)) ∧
    (containsKey (read_all_data ri rh) "regulation_settings" =
      (truthy (rh 1030 6) || truthy (rh 1040 1))) ∧
    (containsKey (read_all_data ri rh) "boiler_settings" = truthy (rh 1050 13)) ∧
    (containsKey (read_all_data ri rh) "dhw_settings" =
      (truthy (rh 1100 5) || truthy (rh 1106 2))) ∧
    (containsKey (read_all_data ri rh) "ch1_settings" = truthy (rh 1200 20)) ∧
    (containsKey (read_all_data ri rh) "ch2_settings" =
      ((truthy (ri 300 7) && ch2_probe (getL (ri 300 7))) &&
        truthy (rh 1300 20))) ∧
    (containsKey (read_all_data ri rh) "system_control" = truthy (rh 3001 10)) :=
  ⟨memRaw_device_info ri rh, memRaw_network_info ri rh,
    memRaw_system_status ri rh, memRaw_regulation ri rh,
    memRaw_boiler_status ri rh, memRaw_dhw_status ri rh,
    memRaw_ch1_status ri rh, memRaw_ch2_status ri rh,
    memRaw_ch2_available ri rh, memRaw_system_alerts ri rh,
    memRaw_ethernet_config ri rh, memRaw_regulation_settings ri rh,
    memRaw_boiler_settings ri rh, memRaw_dhw_settings ri rh,
    memRaw_ch1_settings ri rh, memRaw_ch2_settings ri rh,
    memRaw_system_control ri rh⟩

/-- Claim C8: every batch-group decode routine given fewer registers than
its required count contributes an empty mapping (no metadata for the
device-info group), and — the routines being total functions — never
raises. -/
theorem decode_short_groups_empty (regs : List ℕ) :
    (regs.length < 11 → parse_device_info regs = none) ∧
    (regs.length < 6 → parse_network_info regs = []) ∧
    (regs.length < 2 → parse_system_status regs = []) ∧
    (regs.length < 3 → parse_regulation regs = []) ∧
    (regs.length < 10 → parse_boiler_status regs = []) ∧
    (regs.length < 2 → parse_dhw_status regs = []) ∧
    (∀ pre, regs.length < 7 → parse_ch_status pre regs = []) ∧
    (regs.length < 2 → parse_system_alerts regs = []) ∧
    (regs.length < 6 → parse_regulation_settings regs = []) ∧
    (regs.length < 13 → parse_boiler_settings regs = []) ∧
    (regs.length < 8 → parse_dhw_settings regs = []) ∧
    (∀ pre, regs.length < 20 → parse_ch_settings pre regs = []) ∧
    (regs.length < 10 → parse_system_control regs = []) := by
  refine ⟨fun h => ?_, fun h => ?_, fun h => ?_, fun h => ?_, fun h => ?_,
    fun h => ?_, fun pre h => ?_, fun h => ?_, fun h => ?_, fun h => ?_,
    fun h => ?_, fun pre h => ?_, fun h => ?_⟩ <;>
    first
      | (unfold parse_device_info; rw [dif_neg (by omega)])
      | (unfold parse_network_info; rw [dif_neg (by omega)])
      | (unfold parse_system_status; rw [dif_neg (by omega)])
      | (unfold parse_regulation; rw [dif_neg (by omega)])
      | (unfold parse_boiler_status; rw [dif_neg (by omega)])
      | (unfold parse_dhw_status; rw [dif_neg (by omega)])
      | (unfold parse_ch_status; rw [dif_neg (by omega)])
      | (unfold parse_system_alerts; rw [dif_neg (by omega)])
      | (unfold parse_regulation_settings; rw [dif_neg (by omega)])
      | (unfold parse_boiler_settings; rw [dif_neg (by omega)])
      | (unfold parse_dhw_settings; rw [dif_neg (by omega)])
      | (unfold parse_ch_settings; rw [dif_neg (by omega)])
      | (unfold parse_system_control; rw [dif_neg (by omega)])

/-- Witness for C8 at the one-register list `[1]`, shorter than every
group's requirement. -/
theorem decode_short_groups_empty_witness :
    parse_device_info [1] = none ∧ parse_network_info [1] = [] ∧
    parse_system_status [1] = [] ∧ parse_regulation [1] = [] ∧
    parse_boiler_status [1] = [] ∧ parse_dhw_status [1] = [] ∧
    parse_ch_status "ch1" [1] = [] ∧ parse_system_alerts [1] = [] ∧
    parse_regulation_settings [1] = [] ∧ parse_boiler_settings [1] = [] ∧
    parse_dhw_settings [1] = [] ∧ parse_ch_settings "ch2" [1] = [] ∧
    parse_system_control [1] = [] := by
  obtain ⟨h1, h2, h3, h4, h5, h6, h7, h8, h9, h10, h11, h12, h13⟩ :=
    decode_short_groups_empty [1]
  exact ⟨h1 (by norm_num), h2 (by norm_num), h3 (by norm_num),
    h4 (by norm_num), h5 (by norm_num), h6 (by norm_num),
    h7 "ch1" (by norm_num), h8 (by norm_num), h9 (by norm_num),
    h10 (by norm_num), h11 (by norm_num), h12 "ch2" (by norm_num),
    h13 (by norm_num)⟩

/-- Claim C9: the device-info batch
`[1, 2, 0, 0, 0x0102, 3, 0x0011, 0x2233, 0x4455, 0x0305, 7]` yields
serial "65538" (uint32 of registers 0-1), hardware version "1.2.3"
(byte-packed register 4 plus register 5), firmware version "3.5.7"
(byte-packed register 9 plus register 10), and MAC
"00:11:22:33:44:55" (registers 6-8). -/
theorem device_info_decode_example :
    parse_device_info [1, 2, 0, 0, 0x0102, 3, 0x0011, 0x2233, 0x4455,
      0x0305, 7] =
      some { serial_number := "65538", firmware_version := "3.5.7",
             hardware_version := "1.2.3",
             mac_address := "00:11:22:33:44:55" } := rfl

/-- Claim C10: `connect` authenticates eagerly — starting from the fresh
session state it returns true exactly when both the socket connect and
the handshake succeed, and then the session is authenticated; the
authenticated flag survives every other operation and only a (successful)
`close` resets it to false. -/
theorem connect_eager_authentication (sockOk : Option Bool) (hsOk : Bool) :
    ((connect ⟨false⟩ sockOk hsOk).1 = true ↔
      sockOk = some true ∧ hsOk = true) ∧
    ((connect ⟨false⟩ sockOk hsOk).1 = true →
      (connect ⟨false⟩ sockOk hsOk).2.authenticated = true) ∧
    (∀ (s : ClientState) (a v : ℕ) (h w : Bool), s.authenticated = true →
      (write_register s a v h w).2.1.authenticated = true ∧
      (authenticate_system_access s h).2.1.authenticated = true ∧
      (connect s sockOk hsOk).2.authenticated = true) ∧
    (∀ s : ClientState, (close s true).authenticated = false) := by
  refine ⟨?_, ?_, fun s a v h w hs => ?_, fun s => rfl⟩
  · cases sockOk with
    | none => simp [connect]
    | some b => cases b <;> cases hsOk <;>
        simp [connect, authenticate_system_access]
  · cases sockOk with
    | none => simp [connect]
    | some b => cases b <;> cases hsOk <;>
        simp [connect, authenticate_system_access]
  · obtain ⟨sa⟩ := s
    cases sa
    · exact absurd hs (by simp)
    · cases sockOk with
      | none =>
        unfold write_register connect authenticate_system_access
        split <;> simp
      | some b =>
        cases b <;> unfold write_register connect authenticate_system_access <;>
          split <;> simp

/-- Witness for C10: a successful socket connect plus handshake returns
true and leaves the session authenticated; a later protected write keeps
the flag, and close resets it. -/
theorem connect_eager_authentication_witness :
    (connect ⟨false⟩ (some true) true).1 = true ∧
    (connect ⟨false⟩ (some true) true).2.authenticated = true ∧
    (write_register ⟨true⟩ 1500 7 false true).2.1.authenticated = true ∧
    (close ⟨true⟩ true).authenticated = false := by
  obtain ⟨h1, h2, h3, h4⟩ := connect_eager_authentication (some true) true
  exact ⟨h1.mpr ⟨rfl, rfl⟩, h2 (h1.mpr ⟨rfl, rfl⟩),
    (h3 ⟨true⟩ 1500 7 false true rfl).1, h4 ⟨true⟩⟩

end JablotronVolta
